import Mathlib

/-
  Shallow embedding of src/config.c of the bud TLS terminating proxy.

  C strings are modelled as their UTF-8 byte sequences (List Nat, each < 256);
  `toBytes` computes them from Lean strings.  JSON values follow the parson
  library's data model and accessor semantics (accessors return NULL, 0 or -1
  on a type mismatch, modelled with Option and default values).  Machine
  integers are Nat/Int with explicit wrap-around where the code truncates.
  External library state (OpenSSL SSL_CTX flags, certificates, libuv address
  parsing) is modelled as explicit records and function parameters.
-/

namespace Bud

/- ===== C byte strings ===== -/

/-- UTF-8 bytes of a Lean string, the exact byte sequence a C char* holds. -/
def toBytes (s : String) : List Nat :=
  (s.data.map (fun c => String.utf8EncodeChar c)).flatten.map (fun b => b.toNat)

/-- ASCII tolower on one byte, as C tolower in the POSIX locale. -/
def byteToLower (b : Nat) : Nat := if 65 ≤ b ∧ b ≤ 90 then b + 32 else b

/-- Byte-wise ASCII case folding; two equal-length byte strings compare equal
under strncasecmp iff their foldings are equal. -/
def lowerBytes (l : List Nat) : List Nat := l.map byteToLower

/-- Case-insensitive byte-wise lexicographic order (used only to state the
sortedness property of claim C4). -/
def bytesLe : List Nat → List Nat → Bool
  | [], _ => true
  | _ :: _, [] => false
  | a :: as, b :: bs =>
    byteToLower a < byteToLower b ||
      (byteToLower a = byteToLower b && bytesLe as bs)

/- ===== JSON model (parson) ===== -/

inductive JSONValue where
  | jnull
  | jbool (b : Bool)
  | jnum (n : Int)
  | jstr (s : String)
  | jarr (elems : List JSONValue)
  | jobj (fields : List (String × JSONValue))

abbrev JSONObject := List (String × JSONValue)

/-- parson json_object_get_value: first binding of the key, if any. -/
def json_object_get_value (o : JSONObject) (k : String) : Option JSONValue :=
  (o.find? (fun kv => kv.fst == k)).map (fun kv => kv.snd)

def json_value_get_object : JSONValue → Option JSONObject
  | JSONValue.jobj fields => some fields
  | _ => none

def json_value_get_array : JSONValue → Option (List JSONValue)
  | JSONValue.jarr elems => some elems
  | _ => none

def json_value_get_string : JSONValue → Option String
  | JSONValue.jstr s => some s
  | _ => none

/-- parson json_value_get_number: 0 on a non-number. -/
def json_value_get_number : JSONValue → Int
  | JSONValue.jnum n => n
  | _ => 0

/-- parson json_value_get_boolean: -1 on a non-boolean. -/
def json_value_get_boolean : JSONValue → Int
  | JSONValue.jbool true => 1
  | JSONValue.jbool false => 0
  | _ => -1

def json_object_get_object (o : JSONObject) (k : String) : Option JSONObject :=
  (json_object_get_value o k).bind json_value_get_object

def json_object_get_array (o : JSONObject) (k : String) : Option (List JSONValue) :=
  (json_object_get_value o k).bind json_value_get_array

def json_object_get_string (o : JSONObject) (k : String) : Option String :=
  (json_object_get_value o k).bind json_value_get_string

def json_object_get_number (o : JSONObject) (k : String) : Int :=
  ((json_object_get_value o k).map json_value_get_number).getD 0

def json_object_get_boolean (o : JSONObject) (k : String) : Int :=
  ((json_object_get_value o k).map json_value_get_boolean).getD (-1)

/-- Test for json_value_get_type(v) == JSONString. -/
def jsonIsString : JSONValue → Bool
  | JSONValue.jstr _ => true
  | _ => false

/- ===== Error kinds (bud_error_t codes used by config.c) ===== -/

inductive BudError where
  | jsonParse
  | jsonNonObjectRoot
  | jsonNonObjectCtx
  | npnNonString
  | noMem
  | ecdhNotFound (curve : String)
  | npnNotSupported
  | pton
deriving DecidableEq, Repr

/- ===== Data model ===== -/

/-- Model of the X.509 certificate data the claims touch: the list of OCSP
responder URLs of the Authority Information Access extension, in certificate
order (what OpenSSL X509_get1_ocsp collects). -/
structure Cert where
  aiaOcspUrls : List String := []

inductive TLSMethod where
  | tls1
  | tls1_1
  | tls1_2
  | ssl3
  | ssl23
deriving DecidableEq, Repr

/-- bud_context_t: configuration fields read by bud_config_load plus the
runtime fields used by the claims (calloc leaves them zeroed / none). -/
structure BudContext where
  servername : Option String := none
  servername_len : Nat := 0
  cert_file : Option String := none
  key_file : Option String := none
  npn : Option (List JSONValue) := none
  ciphers : Option String := none
  ecdh : Option String := none
  cert : Option Cert := none
  ocsp_id : Option Nat := none
  ocsp_url : Option String := none
  ocsp_url_len : Nat := 0
  npn_line : Option (List Nat) := none
  npn_line_len : Nat := 0

structure BudLog where
  level : Option String := none
  facility : Option String := none
  stdio : Int := -1
  syslog : Int := -1

structure BudFrontend where
  port : Nat := 0
  host : Option String := none
  security : Option String := none
  npn : Option (List JSONValue) := none
  ciphers : Option String := none
  ecdh : Option String := none
  cert_file : Option String := none
  key_file : Option String := none
  reneg_window : Int := 0
  reneg_limit : Int := 0
  proxyline : Int := -1
  keepalive : Int := -1
  server_preference : Int := -1
  ssl3 : Int := -1
  method : Option TLSMethod := none

structure BudBackend where
  port : Nat := 0
  host : Option String := none
  keepalive : Int := -1

structure BudPool where
  enabled : Int := 0
  port : Nat := 0
  host : Option String := none
  query_fmt : Option String := none

structure BudConfig where
  worker_count : Int := -1
  restart_timeout : Int := -1
  log : BudLog := {}
  frontend : BudFrontend := {}
  backend : BudBackend := {}
  sni : BudPool := {}
  stapling : BudPool := {}
  context_count : Nat := 0
  contexts : List BudContext := []

/- ===== bud_config_verify_npn (config.c lines 152-167) ===== -/

/-- Returns kBudErrNPNNonString as soon as some element of the array is not a
JSON string; a NULL array verifies trivially. -/
def bud_config_verify_npn : Option (List JSONValue) → Except BudError Unit
  | none => Except.ok ()
  | some items =>
    if items.all jsonIsString then Except.ok ()
    else Except.error BudError.npnNonString

/- ===== bud_config_load (config.c lines 170-331) ===== -/

/-- Body of the context-parsing loop: the json_object_get_* reads that fill
one bud_context_t from one element of the contexts array. -/
def bud_config_parse_context_obj (o : JSONObject) : BudContext :=
  let sn := json_object_get_string o "servername"
  { servername := sn
    servername_len := (toBytes (sn.getD "")).length
    cert_file := json_object_get_string o "cert"
    key_file := json_object_get_string o "key"
    npn := json_object_get_array o "npn"
    ciphers := json_object_get_string o "ciphers"
    ecdh := json_object_get_string o "ecdh" }

/-- Context loop of bud_config_load: each element must be a JSON object
(kBudErrJSONNonObjectCtx otherwise) and its npn array must pass
bud_config_verify_npn; contexts are collected in configuration order. -/
def bud_config_load_contexts : List JSONValue → Except BudError (List BudContext)
  | [] => Except.ok []
  | v :: rest =>
    match json_value_get_object v with
    | none => Except.error BudError.jsonNonObjectCtx
    | some o =>
      let ctx := bud_config_parse_context_obj o
      match bud_config_verify_npn ctx.npn with
      | Except.error e => Except.error e
      | Except.ok _ =>
        match bud_config_load_contexts rest with
        | Except.error e => Except.error e
        | Except.ok cs => Except.ok (ctx :: cs)

/-- bud_config_read_pool_conf (config.c lines 334-346). -/
def bud_config_read_pool_conf (obj : JSONObject) (key : String) : BudPool :=
  match json_object_get_object obj key with
  | none => {}
  | some p =>
    { enabled := json_object_get_boolean p "enabled"
      port := (json_object_get_number p "port").toNat % 65536
      host := json_object_get_string p "host"
      query_fmt := json_object_get_string p "query" }

/-- Frontend block reads of bud_config_load (lines 243-273, minus the npn
verification, performed by the caller in source order). -/
def bud_config_parse_frontend (f : JSONObject) : BudFrontend :=
  { port := (json_object_get_number f "port").toNat % 65536
    host := json_object_get_string f "host"
    security := json_object_get_string f "security"
    npn := json_object_get_array f "npn"
    ciphers := json_object_get_string f "ciphers"
    ecdh := json_object_get_string f "ecdh"
    cert_file := json_object_get_string f "cert"
    key_file := json_object_get_string f "key"
    reneg_window := json_object_get_number f "reneg_window"
    reneg_limit := json_object_get_number f "reneg_limit"
    proxyline := match json_object_get_value f "proxyline" with
      | none => -1
      | some v => json_value_get_boolean v
    keepalive := match json_object_get_value f "keepalive" with
      | none => -1
      | some v => json_value_get_number v
    server_preference := match json_object_get_value f "server_preference" with
      | none => -1
      | some v => json_value_get_boolean v
    ssl3 := match json_object_get_value f "ssl3" with
      | none => -1
      | some v => json_value_get_boolean v }

/-- Backend block reads of bud_config_load (lines 276-284). -/
def bud_config_parse_backend (b : JSONObject) : BudBackend :=
  { port := (json_object_get_number b "port").toNat % 65536
    host := json_object_get_string b "host"
    keepalive := match json_object_get_value b "keepalive" with
      | none => -1
      | some v => json_value_get_number v }

/-- Log block reads of bud_config_load (lines 221-234). -/
def bud_config_parse_log (l : JSONObject) : BudLog :=
  { level := json_object_get_string l "level"
    facility := json_object_get_string l "facility"
    stdio := match json_object_get_value l "stdio" with
      | none => -1
      | some v => json_value_get_boolean v
    syslog := match json_object_get_value l "syslog" with
      | none => -1
      | some v => json_value_get_boolean v }

/-- bud_config_set_defaults (config.c lines 505-534): the DEFAULT macro
replaces the marker value by the hard-coded default, field by field. -/
def bud_config_set_defaults (c : BudConfig) : BudConfig :=
  { c with
    worker_count := if c.worker_count = -1 then 1 else c.worker_count
    restart_timeout := if c.restart_timeout = -1 then 250 else c.restart_timeout
    log := { c.log with
      level := some (c.log.level.getD "info")
      facility := some (c.log.facility.getD "user")
      stdio := if c.log.stdio = -1 then 1 else c.log.stdio
      syslog := if c.log.syslog = -1 then 0 else c.log.syslog }
    frontend := { c.frontend with
      port := if c.frontend.port = 0 then 1443 else c.frontend.port
      host := some (c.frontend.host.getD "0.0.0.0")
      proxyline := if c.frontend.proxyline = -1 then 0 else c.frontend.proxyline
      security := some (c.frontend.security.getD "ssl23")
      ecdh := some (c.frontend.ecdh.getD "prime256v1")
      keepalive := if c.frontend.keepalive = -1 then 3600 else c.frontend.keepalive
      server_preference :=
        if c.frontend.server_preference = -1 then 1 else c.frontend.server_preference
      ssl3 := if c.frontend.ssl3 = -1 then 0 else c.frontend.ssl3
      cert_file := some (c.frontend.cert_file.getD "keys/cert.pem")
      key_file := some (c.frontend.key_file.getD "keys/key.pem")
      reneg_window := if c.frontend.reneg_window = 0 then 600 else c.frontend.reneg_window
      reneg_limit := if c.frontend.reneg_limit = 0 then 3 else c.frontend.reneg_limit }
    backend := { c.backend with
      port := if c.backend.port = 0 then 8000 else c.backend.port
      host := some (c.backend.host.getD "127.0.0.1")
      keepalive := if c.backend.keepalive = -1 then 3600 else c.backend.keepalive }
    sni := { c.sni with
      port := if c.sni.port = 0 then 9000 else c.sni.port
      host := some (c.sni.host.getD "127.0.0.1")
      query_fmt := some (c.sni.query_fmt.getD "/bud/sni/%s") }
    stapling := { c.stapling with
      port := if c.stapling.port = 0 then 9000 else c.stapling.port
      host := some (c.stapling.host.getD "127.0.0.1")
      query_fmt := some (c.stapling.query_fmt.getD "/bud/stapling/%s") } }

/-- bud_config_load over the result of json_parse_file (none models a JSON
parse failure). The calloc of the config is modelled as always succeeding;
contexts index 0 is the zeroed default context, indices i+1 hold the parsed
entries in configuration order.  Failure points, in source order: JSON parse,
non-object root, frontend npn verification, then per-context object check and
npn verification. -/
def bud_config_load (json : Option JSONValue) : Except BudError BudConfig :=
  match json with
  | none => Except.error BudError.jsonParse
  | some jsonVal =>
    match json_value_get_object jsonVal with
    | none => Except.error BudError.jsonNonObjectRoot
    | some obj =>
      let contextsArr := json_object_get_array obj "contexts"
      let contextCount := (contextsArr.getD []).length
      let workerCount : Int := match json_object_get_value obj "workers" with
        | none => -1
        | some v => json_value_get_number v
      let restartTimeout : Int := match json_object_get_value obj "restart_timeout" with
        | none => -1
        | some v => json_value_get_number v
      let logCfg : BudLog := match json_object_get_object obj "log" with
        | none => {}
        | some l => bud_config_parse_log l
      let frontendCfg : BudFrontend := match json_object_get_object obj "frontend" with
        | none => {}
        | some f => bud_config_parse_frontend f
      match bud_config_verify_npn frontendCfg.npn with
      | Except.error e => Except.error e
      | Except.ok _ =>
        let backendCfg : BudBackend := match json_object_get_object obj "backend" with
          | none => {}
          | some b => bud_config_parse_backend b
        match bud_config_load_contexts (contextsArr.getD []) with
        | Except.error e => Except.error e
        | Except.ok ctxs =>
          Except.ok (bud_config_set_defaults
            { worker_count := workerCount
              restart_timeout := restartTimeout
              log := logCfg
              frontend := frontendCfg
              backend := backendCfg
              sni := bud_config_read_pool_conf obj "sni"
              stapling := bud_config_read_pool_conf obj "stapling"
              context_count := contextCount
              contexts := ({} : BudContext) :: ctxs })

/- ===== bud_config_encode_npn (config.c lines 540-590) ===== -/

/-- bud_config_encode_npn: falls back to the frontend npn array when the
per-context one is NULL; returns NULL (none) when both are absent.  Each
token contributes one length octet (strlen truncated to a byte, as the char
store npn_line[offset++] = npn_item_len does) followed by the token's bytes.
A non-string element reads as NULL in C (undefined strlen); it is modelled as
the empty string and excluded by hypotheses, since bud_config_load only
accepts all-string arrays. -/
def bud_config_encode_npn (config : BudConfig) (npn : Option (List JSONValue)) :
    Option (List Nat) :=
  let npnArr := match npn with
    | none => config.frontend.npn
    | some a => some a
  match npnArr with
  | none => none
  | some items =>
    some (items.foldr
      (fun v acc =>
        let bytes := toBytes ((json_value_get_string v).getD "")
        (bytes.length % 256 :: bytes) ++ acc)
      [])

/-- Wire-format decoder for the NPN advertisement line (from the claim, not
the source): repeatedly read one length octet and that many token bytes.
Fuel-structured so that it evaluates by rfl; the fuel is the line length. -/
def decodeNpnAux : Nat → List Nat → Option (List (List Nat))
  | _, [] => some []
  | 0, _ :: _ => none
  | fuel + 1, n :: rest =>
    if rest.length < n then none
    else
      match decodeNpnAux fuel (rest.drop n) with
      | some ts => some (rest.take n :: ts)
      | none => none

def decodeNpn (l : List Nat) : Option (List (List Nat)) :=
  decodeNpnAux l.length l

/- ===== bud_config_new_ssl_ctx (config.c lines 594-702) ===== -/

/-- SSL_SESS_CACHE_OFF. -/
def SSL_SESS_CACHE_OFF : Nat := 0

/-- SSL_SESS_CACHE_SERVER, the OpenSSL default session cache mode. -/
def SSL_SESS_CACHE_SERVER : Nat := 2

/-- Model of an OpenSSL SSL_CTX as far as config.c configures one: the chosen
method, the session cache mode, the individual option bits the code can set,
the ECDH curve, the cipher list and the installed callbacks.  SSL_CTX_new
leaves the session cache in server mode and every option bit clear; in
particular optNoTicket false means session tickets are enabled. -/
structure SSLCtxState where
  meth : TLSMethod
  sessCacheMode : Nat := SSL_SESS_CACHE_SERVER
  optNoSSLv2 : Bool := false
  optAll : Bool := false
  optNoSSLv3 : Bool := false
  optSingleECDHUse : Bool := false
  optServerPref : Bool := false
  optNoTicket : Bool := false
  tmpEcdhNid : Option Nat := none
  cipherList : Option String := none
  servernameCB : Bool := false
  npnAdvertCB : Bool := false
  statusCB : Bool := false
deriving DecidableEq, Repr

/-- Method selection chain of bud_config_new_ssl_ctx lines 603-614: strcmp
against the four recognized names, SSLv23_server_method otherwise. -/
def chooseMethod (security : String) : TLSMethod :=
  if security = "tls1.1" then TLSMethod.tls1_1
  else if security = "tls1.0" then TLSMethod.tls1
  else if security = "tls1.2" then TLSMethod.tls1_2
  else if security = "ssl3" then TLSMethod.ssl3
  else TLSMethod.ssl23

/-- Method resolution of bud_config_new_ssl_ctx lines 602-614: the cached
config->frontend.method when already set, the chooseMethod chain otherwise
(the code then stores it; the cache only memoizes this value). -/
def bud_frontend_method (config : BudConfig) : TLSMethod :=
  match config.frontend.method with
  | some m => m
  | none => chooseMethod (config.frontend.security.getD "")

/-- bud_config_new_ssl_ctx.  sn2nid models OBJ_sn2nid (none = NID_undef).
Allocation failures (kBudErrNoMem paths) are not modelled; OPENSSL_NPN and
the servername callback macros are taken as defined, as the spec assumes.
Returns the configured SSL_CTX together with the context updated with its
npn_line. -/
def bud_config_new_ssl_ctx (sn2nid : String → Option Nat)
    (config : BudConfig) (context : BudContext) :
    Except BudError (SSLCtxState × BudContext) :=
  let meth := bud_frontend_method config
  let ctx : SSLCtxState := { meth := meth, sessCacheMode := SSL_SESS_CACHE_OFF }
  let ecdhStep : Except BudError SSLCtxState :=
    if context.ecdh ≠ none ∨ config.frontend.ecdh ≠ none then
      let curve := match context.ecdh with
        | some e => e
        | none => config.frontend.ecdh.getD ""
      match sn2nid curve with
      | none => Except.error (BudError.ecdhNotFound curve)
      | some nid =>
        Except.ok { ctx with optSingleECDHUse := true, tmpEcdhNid := some nid }
    else Except.ok ctx
  match ecdhStep with
  | Except.error e => Except.error e
  | Except.ok ctx =>
    let ctx := { ctx with
      cipherList := match context.ciphers with
        | some c => some c
        | none => config.frontend.ciphers }
    let ctx := { ctx with
      optNoSSLv2 := true
      optAll := true
      optNoSSLv3 := config.frontend.ssl3 = 0
      optServerPref := config.frontend.server_preference ≠ 0 }
    let ctx := { ctx with servernameCB := config.context_count ≠ 0 }
    let npnLine := bud_config_encode_npn config context.npn
    let context := { context with
      npn_line := npnLine
      npn_line_len := (npnLine.getD []).length }
    let ctx := { ctx with npnAdvertCB := npnLine ≠ none }
    let ctx := { ctx with statusCB := true }
    Except.ok (ctx, context)

/- ===== bud_config_select_context (config.c lines 942-962) ===== -/

/-- Loop of bud_config_select_context over contexts[i + 1], i ranging over the
table entries: a length mismatch continues the scan, a name mismatch at equal
length breaks out of the loop (returning the default), a full caseless match
returns the entry. -/
def selectContextLoop (defaultCtx : BudContext) (entries : List BudContext)
    (sn : List Nat) : BudContext :=
  match entries with
  | [] => defaultCtx
  | ctx :: rest =>
    if sn.length ≠ ctx.servername_len then selectContextLoop defaultCtx rest sn
    else if lowerBytes sn ≠ lowerBytes (toBytes (ctx.servername.getD "")) then
      defaultCtx
    else ctx

/-- bud_config_select_context: scans contexts[1 ..= context_count] and falls
back to contexts[0].  The servername argument is the C string's bytes. -/
def bud_config_select_context (config : BudConfig) (sn : List Nat) : BudContext :=
  selectContextLoop ((config.contexts.head?).getD {})
    (config.contexts.tail.take config.context_count) sn

/- ===== bud_config_select_sni_context (config.c lines 966-990) ===== -/

/-- SSL_TLSEXT_ERR_OK. -/
def SSL_TLSEXT_ERR_OK : Int := 0

/-- Per-session TLS state as the SNI callback sees it: the parsed server_name
of the ClientHello (SSL_get_servername), the kBudSSLSNIIndex ex-data slot the
asynchronous SNI resolver may have populated, and the context whose SSL_CTX
the session currently uses (SSL_set_SSL_CTX records the adopted context). -/
structure SSLState where
  servername : Option (List Nat) := none
  sniExData : Option BudContext := none
  curCtx : Option BudContext := none

/-- bud_config_select_sni_context: returns the updated session state and the
callback's return value. -/
def bud_config_select_sni_context (config : BudConfig) (s : SSLState) :
    SSLState × Int :=
  match s.servername with
  | none => (s, SSL_TLSEXT_ERR_OK)
  | some sn =>
    let ctx := match s.sniExData with
      | some c => c
      | none => bud_config_select_context config sn
    ({ s with curCtx := some ctx }, SSL_TLSEXT_ERR_OK)

/- ===== bud_context_get_ocsp_req, URL part (config.c lines 745-810) ===== -/

/-- X509_get1_ocsp: NULL unless the certificate's AIA extension lists at
least one OCSP responder URL; otherwise the stack of those URLs in
certificate order. -/
def X509_get1_ocsp (cert : Option Cert) : Option (List String) :=
  match cert with
  | none => none
  | some c => if c.aiaOcspUrls = [] then none else some c.aiaOcspUrls

/-- URL computation of bud_context_get_ocsp_req: if ocsp_url is cached,
return it; otherwise pop one URL from the X509_get1_ocsp stack
(sk_OPENSSL_STRING_pop removes the LAST element) and cache it together with
its strlen.  The OCSP request assembled afterwards from ocsp_id is pure
OpenSSL calls and does not alter the URL or the context fields modelled here.
Returns the updated context and the returned URL. -/
def bud_context_get_ocsp_req (context : BudContext) :
    BudContext × Option String :=
  match context.ocsp_url with
  | some u => (context, some u)
  | none =>
    match X509_get1_ocsp context.cert with
    | none => (context, none)
    | some urls =>
      let u := urls.getLast?
      ({ context with
          ocsp_url := u
          ocsp_url_len := (toBytes (u.getD "")).length },
        u)

/- ===== bud_config_str_to_addr (config.c lines 1010-1032) ===== -/

/-- Resulting sockaddr_storage contents: the address family's payload plus
the two port bytes exactly as they sit in memory (sin_port / sin6_port after
htons, so network byte order: high byte first). -/
inductive SockAddr where
  | v4 (addr : Nat) (portHi portLo : Nat)
  | v6 (addr : List Nat) (portHi portLo : Nat)
deriving DecidableEq, Repr

/-- bud_config_str_to_addr.  pton4/pton6 model uv_inet_pton for AF_INET and
AF_INET6 (none = parse failure); no name resolution exists in the model, as
none is performed by the code.  none models a nonzero return value with the
address undefined. -/
def bud_config_str_to_addr (pton4 : String → Option Nat)
    (pton6 : String → Option (List Nat)) (host : String) (port : Nat) :
    Option SockAddr :=
  match pton4 host with
  | some a => some (SockAddr.v4 a (port / 256 % 256) (port % 256))
  | none =>
    match pton6 host with
    | some a => some (SockAddr.v6 a (port / 256 % 256) (port % 256))
    | none => none

/- ===== Shared helper definitions and lemmas ===== -/

/-- Full-length case-insensitive servername match, as the spec's lookup
describes it. -/
def matchesServername (c : BudContext) (sn : List Nat) : Prop :=
  sn.length = c.servername_len ∧
    lowerBytes sn = lowerBytes (toBytes (c.servername.getD ""))

/-- Convenience constructor: a table entry as bud_config_load builds it from
an object with only a servername. -/
def namedCtx (s : String) : BudContext :=
  { servername := some s, servername_len := (toBytes s).length }

theorem selectContextLoop_total (d : BudContext) (es : List BudContext)
    (sn : List Nat) :
    selectContextLoop d es sn = d ∨ selectContextLoop d es sn ∈ es := by
  induction es with
  | nil => exact Or.inl rfl
  | cons c rest ih =>
    simp only [selectContextLoop]
    by_cases hlen : sn.length ≠ c.servername_len
    · rw [if_pos hlen]
      rcases ih with h | h
      · exact Or.inl h
      · exact Or.inr (List.mem_cons_of_mem _ h)
    · rw [if_neg hlen]
      by_cases hname : lowerBytes sn ≠ lowerBytes (toBytes (c.servername.getD ""))
      · rw [if_pos hname]
        exact Or.inl rfl
      · rw [if_neg hname]
        exact Or.inr (List.mem_cons_self _ _)

/- ===== Claim C1 ===== -/

/-- Configuration of the spec's end-to-end scenario 2: two contexts with
servernames a.example and b.example, in that order. -/
def cfgScenario2 : BudConfig :=
  { context_count := 2
    contexts := [{}, namedCtx "a.example", namedCtx "b.example"] }

/-- C1: refuted at the spec's own scenario 2.  The table holds an entry whose
servername equals the query b.example case-insensitively at full length, yet
bud_config_select_context returns the default context (index 0, no
servername): the loop breaks out at the first equal-length entry whose name
differs (a.example) instead of continuing the scan. -/
theorem claim_C1_select_context_break_bug :
    (∃ c, c ∈ cfgScenario2.contexts.tail ∧ matchesServername c (toBytes "b.example")) ∧
    bud_config_select_context cfgScenario2 (toBytes "b.example") =
      (cfgScenario2.contexts.head?).getD {} ∧
    ((cfgScenario2.contexts.head?).getD {}).servername = none := by
  refine ⟨⟨namedCtx "b.example", ?_, rfl, rfl⟩, rfl, rfl⟩
  exact List.mem_cons_of_mem _ (List.mem_cons_self _ _)

/- ===== Claim C2 ===== -/

/-- C2: context table lookup is total.  For every configuration and every
servername byte string, bud_config_select_context returns either the default
context contexts[0] or one of the table entries; it cannot fail. -/
theorem claim_C2_select_context_total (config : BudConfig) (sn : List Nat) :
    bud_config_select_context config sn = (config.contexts.head?).getD {} ∨
    bud_config_select_context config sn ∈ config.contexts.tail := by
  rcases selectContextLoop_total ((config.contexts.head?).getD {})
      (config.contexts.tail.take config.context_count) sn with h | h
  · exact Or.inl h
  · exact Or.inr (List.take_subset _ _ h)

/- ===== Claim C3 ===== -/

/-- C3: the SNI callback keeps the session untouched and lets the handshake
proceed when no server_name is present; with a server_name it adopts the
context in the kBudSSLSNIIndex ex-data slot when populated, without reading
the table (the result is the same for every configuration); only with an
empty slot does it fall back to the bud_config_select_context table lookup.
SSL_TLSEXT_ERR_OK is returned in every case. -/
theorem claim_C3_sni_dispatch (config config2 : BudConfig) (s : SSLState) :
    (s.servername = none →
      bud_config_select_sni_context config s = (s, SSL_TLSEXT_ERR_OK)) ∧
    (∀ c, s.sniExData = some c → ∀ sn, s.servername = some sn →
      bud_config_select_sni_context config s =
        ({ s with curCtx := some c }, SSL_TLSEXT_ERR_OK) ∧
      bud_config_select_sni_context config s =
        bud_config_select_sni_context config2 s) ∧
    (∀ sn, s.servername = some sn → s.sniExData = none →
      bud_config_select_sni_context config s =
        ({ s with curCtx := some (bud_config_select_context config sn) },
          SSL_TLSEXT_ERR_OK)) := by
  refine ⟨?_, ?_, ?_⟩
  · intro h
    simp [bud_config_select_sni_context, h]
  · intro c hc sn hsn
    constructor <;> simp [bud_config_select_sni_context, hc, hsn]
  · intro sn hsn hex
    simp [bud_config_select_sni_context, hsn, hex]

def sessOverride : SSLState :=
  { servername := some (toBytes "x.example"), sniExData := some (namedCtx "other") }

/-- C3 witness: a session with a populated override slot adopts that context. -/
theorem claim_C3_witness :
    bud_config_select_sni_context cfgScenario2 sessOverride =
      ({ sessOverride with curCtx := some (namedCtx "other") }, SSL_TLSEXT_ERR_OK) :=
  ((claim_C3_sni_dispatch cfgScenario2 {} sessOverride).2.1
    (namedCtx "other") rfl (toBytes "x.example") rfl).1

/- ===== Claim C6 ===== -/

/-- C6: refuted by evaluation at the default configuration.  The SSL_CTX
built by bud_config_new_ssl_ctx has the session cache disabled
(SSL_SESS_CACHE_OFF) but session tickets are NOT disabled: the code never
sets SSL_OP_NO_TICKET (optNoTicket stays false, its SSL_CTX_new default), so
the claim that both are disabled fails. -/
theorem claim_C6_tickets_enabled :
    (bud_config_new_ssl_ctx (fun _ => none) {} {}).toOption.map
      (fun p => (p.1.sessCacheMode, p.1.optNoTicket)) =
      some (SSL_SESS_CACHE_OFF, false) := by rfl

/- ===== Claim C7 ===== -/

/-- C7: bud_config_str_to_addr tries the numeric IPv4 parse first (when it
succeeds the result is the IPv4 address and the IPv6 parser is never
consulted: the result is identical for every pton6), falls back to IPv6 only
on IPv4 failure, stores the port bytes in network byte order (high byte
first) in both families, and returns an error exactly when both numeric
parses fail; no name resolution is involved. -/
theorem claim_C7_str_to_addr (pton4 : String → Option Nat)
    (pton6 : String → Option (List Nat)) (host : String) (port : Nat) :
    (∀ a, pton4 host = some a →
      bud_config_str_to_addr pton4 pton6 host port =
        some (SockAddr.v4 a (port / 256 % 256) (port % 256)) ∧
      ∀ pton6b, bud_config_str_to_addr pton4 pton6b host port =
        bud_config_str_to_addr pton4 pton6 host port) ∧
    (∀ a, pton4 host = none → pton6 host = some a →
      bud_config_str_to_addr pton4 pton6 host port =
        some (SockAddr.v6 a (port / 256 % 256) (port % 256))) ∧
    (bud_config_str_to_addr pton4 pton6 host port = none ↔
      pton4 host = none ∧ pton6 host = none) := by
  refine ⟨?_, ?_, ?_⟩
  · intro a ha
    refine ⟨by simp [bud_config_str_to_addr, ha], ?_⟩
    intro pton6b
    simp [bud_config_str_to_addr, ha]
  · intro a h4 h6
    simp [bud_config_str_to_addr, h4, h6]
  · cases h4 : pton4 host with
    | some a => simp [bud_config_str_to_addr, h4]
    | none =>
      cases h6 : pton6 host with
      | some a => simp [bud_config_str_to_addr, h4, h6]
      | none => simp [bud_config_str_to_addr, h4, h6]

def pton4Ex : String → Option Nat :=
  fun h => if h = "127.0.0.1" then some 2130706433 else none

def pton6Ex : String → Option (List Nat) :=
  fun h => if h = "::1" then some [0, 0, 0, 0, 0, 0, 0, 0, 0, 0, 0, 0, 0, 0, 0, 1] else none

/-- C7 witness: 127.0.0.1 port 8000 parses as IPv4 with port bytes 31, 64. -/
theorem claim_C7_witness :
    bud_config_str_to_addr pton4Ex pton6Ex "127.0.0.1" 8000 =
      some (SockAddr.v4 2130706433 31 64) :=
  ((claim_C7_str_to_addr pton4Ex pton6Ex "127.0.0.1" 8000).1 2130706433 rfl).1

/- ===== Claim C10 ===== -/

theorem encode_npn_only_frontend_npn (c1 c2 : BudConfig)
    (npn : Option (List JSONValue)) (h : c1.frontend.npn = c2.frontend.npn) :
    bud_config_encode_npn c1 npn = bud_config_encode_npn c2 npn := by
  cases npn <;> simp [bud_config_encode_npn, h]

theorem new_ssl_ctx_congr (sn2nid : String → Option Nat) (c1 c2 : BudConfig)
    (context : BudContext)
    (hmeth : bud_frontend_method c1 = bud_frontend_method c2)
    (hnpn : c1.frontend.npn = c2.frontend.npn)
    (hecdh : c1.frontend.ecdh = c2.frontend.ecdh)
    (hciph : c1.frontend.ciphers = c2.frontend.ciphers)
    (hssl3 : c1.frontend.ssl3 = c2.frontend.ssl3)
    (hpref : c1.frontend.server_preference = c2.frontend.server_preference)
    (hcc : c1.context_count = c2.context_count) :
    bud_config_new_ssl_ctx sn2nid c1 context =
      bud_config_new_ssl_ctx sn2nid c2 context := by
  have he := encode_npn_only_frontend_npn c1 c2 context.npn hnpn
  simp only [bud_config_new_ssl_ctx, hmeth, hnpn, hecdh, hciph, hssl3, hpref, hcc, he]

/-- C10: with the method not yet cached and a security string that is none of
tls1.0, tls1.1, tls1.2, ssl3, the method silently falls back to
SSLv23_server_method, and the outcome of bud_config_new_ssl_ctx is exactly
the one obtained with the default security value ssl23: an unrecognized
security value can never produce an error of its own. -/
theorem claim_C10_security_fallback (sn2nid : String → Option Nat)
    (config : BudConfig) (context : BudContext) (s : String)
    (hm : config.frontend.method = none)
    (hsec : config.frontend.security = some s)
    (h0 : s ≠ "tls1.0") (h1 : s ≠ "tls1.1") (h2 : s ≠ "tls1.2") (h3 : s ≠ "ssl3") :
    (∀ st ctx2, bud_config_new_ssl_ctx sn2nid config context = Except.ok (st, ctx2) →
      st.meth = TLSMethod.ssl23) ∧
    bud_config_new_ssl_ctx sn2nid config context =
      bud_config_new_ssl_ctx sn2nid
        { config with frontend := { config.frontend with security := some "ssl23" } }
        context := by
  have hch : bud_frontend_method config = TLSMethod.ssl23 := by
    simp [bud_frontend_method, hm, hsec, chooseMethod, h0, h1, h2, h3]
  constructor
  · intro st ctx2 h
    simp only [bud_config_new_ssl_ctx, hch] at h
    split at h
    · exact absurd h (by simp)
    · next ctx0 heq =>
      have hm0 : ctx0.meth = TLSMethod.ssl23 := by
        split at heq
        · split at heq
          · exact absurd heq (by simp)
          · simp only [Except.ok.injEq] at heq
            subst heq
            rfl
        · simp only [Except.ok.injEq] at heq
          subst heq
          rfl
      simp only [Except.ok.injEq, Prod.mk.injEq] at h
      rw [← h.1]
      simpa using hm0
  · refine new_ssl_ctx_congr sn2nid _ _ context ?_ rfl rfl rfl rfl rfl rfl
    rw [hch]
    simp [bud_frontend_method, hm]
    rfl

def cfgSecurityFoo : BudConfig := { frontend := { security := some "foo" } }

/-- C10 witness: security foo behaves exactly as ssl23. -/
theorem claim_C10_witness :
    bud_config_new_ssl_ctx (fun _ => none) cfgSecurityFoo {} =
      bud_config_new_ssl_ctx (fun _ => none)
        { cfgSecurityFoo with
            frontend := { cfgSecurityFoo.frontend with security := some "ssl23" } }
        {} :=
  (claim_C10_security_fallback (fun _ => none) cfgSecurityFoo {} "foo" rfl rfl
    (by decide) (by decide) (by decide) (by decide)).2

/- ===== Claim C4 ===== -/

/-- Sortedness of the table entries by servername, case-insensitive,
lexicographic, byte-wise — the invariant the claim asserts. -/
def sortedByServernameB : List BudContext → Bool
  | [] => true
  | [_] => true
  | a :: b :: rest =>
    bytesLe (lowerBytes (toBytes (a.servername.getD "")))
        (lowerBytes (toBytes (b.servername.getD ""))) &&
      sortedByServernameB (b :: rest)

/-- Configuration file whose contexts appear in reverse-sorted order. -/
def jsonUnsorted : JSONValue :=
  JSONValue.jobj [("contexts", JSONValue.jarr
    [JSONValue.jobj [("servername", JSONValue.jstr "b.example")],
     JSONValue.jobj [("servername", JSONValue.jstr "a.example")]])]

/-- C4 counterexample: a configuration listing b.example before a.example
loads successfully and the resulting table keeps that order — bud_config_load
never sorts the table (the source's TODO notes sorting as future work). -/
theorem claim_C4_counterexample :
    (bud_config_load (some jsonUnsorted)).toOption.map
      (fun c => (sortedByServernameB c.contexts.tail,
        c.contexts.tail.map (fun ctx => ctx.servername))) =
      some (false, [some "b.example", some "a.example"]) := by rfl

theorem load_contexts_servernames (l : List JSONValue) (cs : List BudContext)
    (h : bud_config_load_contexts l = Except.ok cs) :
    cs.map (fun c => c.servername) =
      l.map (fun v =>
        json_object_get_string ((json_value_get_object v).getD []) "servername") := by
  induction l generalizing cs with
  | nil =>
    simp only [bud_config_load_contexts, Except.ok.injEq] at h
    subst h
    rfl
  | cons v rest ih =>
    simp only [bud_config_load_contexts] at h
    split at h
    · exact absurd h (by simp)
    · next o ho =>
      split at h
      · exact absurd h (by simp)
      · split at h
        · exact absurd h (by simp)
        · next cs2 hrest =>
          simp only [Except.ok.injEq] at h
          subst h
          simp only [List.map, ho, Option.getD_some]
          rw [ih cs2 hrest]
          rfl

/-- C4 amended: after a successful bud_config_load the table entry at index 0
is the zeroed default context (no servername) and the entries at indices
i + 1 carry the servernames of the configuration's contexts array in
configuration order; no sorting, uniqueness or non-emptiness check is
performed (the counterexample shows an unsorted table loading fine). -/
theorem claim_C4_load_order (j : JSONValue) (cfg : BudConfig)
    (h : bud_config_load (some j) = Except.ok cfg) :
    (cfg.contexts.head?).map (fun c => c.servername) = some none ∧
    cfg.contexts.tail.map (fun c => c.servername) =
      ((json_object_get_array ((json_value_get_object j).getD []) "contexts").getD []).map
        (fun v =>
          json_object_get_string ((json_value_get_object v).getD []) "servername") := by
  simp only [bud_config_load] at h
  split at h
  · exact absurd h (by simp)
  · next o ho =>
    split at h
    · exact absurd h (by simp)
    · split at h
      · exact absurd h (by simp)
      · next ctxs hctxs =>
        simp only [Except.ok.injEq] at h
        subst h
        refine ⟨rfl, ?_⟩
        show (({} : BudContext) :: ctxs).tail.map (fun c => c.servername) = _
        simp only [List.tail_cons, ho, Option.getD_some]
        exact load_contexts_servernames _ _ hctxs

def cfgUnsorted : BudConfig := (bud_config_load (some jsonUnsorted)).toOption.getD {}

/-- C4 witness: the amended statement at the two-context configuration. -/
theorem claim_C4_witness :
    (cfgUnsorted.contexts.head?).map (fun c => c.servername) = some none ∧
    cfgUnsorted.contexts.tail.map (fun c => c.servername) =
      ((json_object_get_array ((json_value_get_object jsonUnsorted).getD [])
          "contexts").getD []).map
        (fun v =>
          json_object_get_string ((json_value_get_object v).getD []) "servername") :=
  claim_C4_load_order jsonUnsorted cfgUnsorted (by rfl)

/- ===== Claim C5 ===== -/

/-- Byte sequences of the configured NPN tokens, in configuration order. -/
def npnTokens (items : List JSONValue) : List (List Nat) :=
  items.map (fun v => toBytes ((json_value_get_string v).getD ""))

/-- Wire format of the NPN advertisement from the spec: one octet holding the
token length followed by the token bytes, repeated in list order. -/
def npnWire (tokens : List (List Nat)) : List Nat :=
  (tokens.map (fun t => t.length :: t)).flatten

theorem npnWire_cons (t : List Nat) (ts : List (List Nat)) :
    npnWire (t :: ts) = t.length :: (t ++ npnWire ts) := by
  simp [npnWire]

theorem npnWire_length_ge (tokens : List (List Nat)) :
    tokens.length ≤ (npnWire tokens).length := by
  induction tokens with
  | nil => simp [npnWire]
  | cons t ts ih =>
    rw [npnWire_cons]
    simp only [List.length_cons, List.length_append]
    omega

theorem decodeNpnAux_npnWire (tokens : List (List Nat)) (fuel : Nat)
    (hf : tokens.length ≤ fuel) :
    decodeNpnAux fuel (npnWire tokens) = some tokens := by
  induction tokens generalizing fuel with
  | nil =>
    cases fuel <;> rfl
  | cons t ts ih =>
    cases fuel with
    | zero => simp at hf
    | succ f =>
      rw [npnWire_cons]
      simp only [decodeNpnAux]
      rw [if_neg (by simp only [List.length_append]; omega)]
      rw [List.drop_left, ih f (by simpa using hf), List.take_left]

theorem decodeNpn_npnWire (tokens : List (List Nat)) :
    decodeNpn (npnWire tokens) = some tokens :=
  decodeNpnAux_npnWire tokens _ (npnWire_length_ge tokens)

theorem encode_npn_eq_npnWire (config : BudConfig) (items : List JSONValue)
    (hlen : ∀ v ∈ items, (toBytes ((json_value_get_string v).getD "")).length < 256) :
    bud_config_encode_npn config (some items) = some (npnWire (npnTokens items)) := by
  simp only [bud_config_encode_npn]
  congr 1
  induction items with
  | nil => rfl
  | cons v vs ih =>
    simp only [List.foldr_cons, npnTokens, List.map_cons, npnWire_cons]
    rw [Nat.mod_eq_of_lt (hlen v (List.mem_cons_self _ _))]
    rw [ih (fun x hx => hlen x (List.mem_cons_of_mem _ hx))]
    simp [npnTokens, npnWire]

/-- C5 amended: provided every configured token is shorter than 256 bytes,
the npn_line built by bud_config_encode_npn is exactly the wire format (one
length octet then the token bytes, in list order) and decoding it recovers
the configured token list; for a token of 256 bytes or more the length octet
is stored modulo 256 (the counterexample) and the round trip fails. -/
theorem claim_C5_npn_roundtrip (config : BudConfig) (items : List JSONValue)
    (hlen : ∀ v ∈ items, (toBytes ((json_value_get_string v).getD "")).length < 256) :
    bud_config_encode_npn config (some items) = some (npnWire (npnTokens items)) ∧
    decodeNpn (npnWire (npnTokens items)) = some (npnTokens items) :=
  ⟨encode_npn_eq_npnWire config items hlen, decodeNpn_npnWire (npnTokens items)⟩

def npnItemsEx : List JSONValue :=
  [JSONValue.jstr "http/1.1", JSONValue.jstr "http/1.0"]

/-- C5 witness: the default NPN list round-trips through the wire format. -/
theorem claim_C5_witness :
    bud_config_encode_npn {} (some npnItemsEx) = some (npnWire (npnTokens npnItemsEx)) ∧
    decodeNpn (npnWire (npnTokens npnItemsEx)) = some (npnTokens npnItemsEx) :=
  claim_C5_npn_roundtrip {} npnItemsEx (by decide)

def tokenLong : String := String.mk (List.replicate 256 'a')

set_option maxRecDepth 40000 in
/-- C5 counterexample: a single 256-byte token passes NPN verification, yet
the produced npn_line starts with the length octet 256 mod 256 = 0, so
decoding it by the wire format does not yield the configured token list (it
fails outright). -/
theorem claim_C5_counterexample :
    bud_config_verify_npn (some [JSONValue.jstr tokenLong]) = Except.ok () ∧
    decodeNpn ((bud_config_encode_npn {} (some [JSONValue.jstr tokenLong])).getD [])
      = none ∧
    some (npnTokens [JSONValue.jstr tokenLong]) ≠ (none : Option (List (List Nat))) := by
  refine ⟨rfl, by decide, by simp⟩

/- ===== Claim C8 ===== -/

def certTwoUrls : Cert :=
  { aiaOcspUrls := ["http://ocsp-primary.example", "http://ocsp-backup.example"] }

def ctxTwoUrls : BudContext := { cert := some certTwoUrls }

/-- C8 counterexample: on a certificate whose AIA extension lists two OCSP
URLs the code returns and caches the LAST one (sk_OPENSSL_STRING_pop removes
the end of the stack), not the primary (first) one the claim names. -/
theorem claim_C8_counterexample :
    certTwoUrls.aiaOcspUrls.head? = some "http://ocsp-primary.example" ∧
    (bud_context_get_ocsp_req ctxTwoUrls).2 = some "http://ocsp-backup.example" ∧
    ((bud_context_get_ocsp_req ctxTwoUrls).1).ocsp_url =
      some "http://ocsp-backup.example" ∧
    ("http://ocsp-backup.example" : String) ≠ "http://ocsp-primary.example" := by
  refine ⟨rfl, rfl, rfl, by decide⟩

/-- C8 amended: for a context whose certificate carries AIA OCSP URLs and
whose URL cache is empty, bud_context_get_ocsp_req returns the LAST AIA OCSP
URL of the certificate and caches it on the context; every later call
returns the same cached value and leaves the context unchanged. -/
theorem claim_C8_ocsp_url_last_cached (context : BudContext) (c : Cert)
    (hcert : context.cert = some c) (hne : c.aiaOcspUrls ≠ [])
    (hcache : context.ocsp_url = none) :
    (bud_context_get_ocsp_req context).2 = c.aiaOcspUrls.getLast? ∧
    ((bud_context_get_ocsp_req context).1).ocsp_url = c.aiaOcspUrls.getLast? ∧
    bud_context_get_ocsp_req (bud_context_get_ocsp_req context).1 =
      ((bud_context_get_ocsp_req context).1, c.aiaOcspUrls.getLast?) := by
  obtain ⟨u, hu⟩ : ∃ u, c.aiaOcspUrls.getLast? = some u := by
    cases hl : c.aiaOcspUrls.getLast? with
    | none => exact absurd (List.getLast?_eq_none_iff.mp hl) hne
    | some u => exact ⟨u, rfl⟩
  simp [bud_context_get_ocsp_req, X509_get1_ocsp, hcert, hne, hcache, hu]

/-- C8 witness: the amended statement at the two-URL certificate. -/
theorem claim_C8_witness :
    (bud_context_get_ocsp_req ctxTwoUrls).2 = certTwoUrls.aiaOcspUrls.getLast? :=
  (claim_C8_ocsp_url_last_cached ctxTwoUrls certTwoUrls rfl (by decide) rfl).1

/- ===== Claim C9 ===== -/

/-- Frontend npn array of a configuration file, exactly as bud_config_load
reaches it (absent when the root has no frontend object or the frontend has
no npn array). -/
def frontendNpnOf (j : JSONValue) : Option (List JSONValue) :=
  (json_object_get_object ((json_value_get_object j).getD []) "frontend").bind
    (fun f => json_object_get_array f "npn")

/-- Contexts array of a configuration file as bud_config_load reads it. -/
def rootContextsOf (j : JSONValue) : List JSONValue :=
  (json_object_get_array ((json_value_get_object j).getD []) "contexts").getD []

/-- The claim's condition: some element of the frontend npn array or of some
context object's npn array is not a JSON string. -/
def someNpnNonString (j : JSONValue) : Prop :=
  (∃ items, frontendNpnOf j = some items ∧ ∃ v ∈ items, jsonIsString v = false) ∨
  (∃ el ∈ rootContextsOf j, ∃ o, json_value_get_object el = some o ∧
    ∃ items, json_object_get_array o "npn" = some items ∧
      ∃ v ∈ items, jsonIsString v = false)

theorem verify_npn_error_iff (npn : Option (List JSONValue)) :
    bud_config_verify_npn npn = Except.error BudError.npnNonString ↔
      ∃ items, npn = some items ∧ ∃ v ∈ items, jsonIsString v = false := by
  cases npn with
  | none => simp [bud_config_verify_npn]
  | some items =>
    by_cases hall : items.all jsonIsString
    · simp only [bud_config_verify_npn, if_pos hall]
      rw [List.all_eq_true] at hall
      constructor
      · intro h
        exact absurd h (by simp)
      · rintro ⟨items2, hi, v, hv, hfv⟩
        cases hi
        exact absurd (hall v hv) (by simp [hfv])
    · simp only [bud_config_verify_npn, if_neg hall]
      constructor
      · intro _
        refine ⟨items, rfl, ?_⟩
        by_contra hno
        push_neg at hno
        refine hall (List.all_eq_true.mpr ?_)
        intro v hv
        cases hb : jsonIsString v with
        | false => exact absurd hb (hno v hv)
        | true => rfl
      · intro _
        trivial

theorem verify_npn_error_unique (npn : Option (List JSONValue)) (e : BudError)
    (h : bud_config_verify_npn npn = Except.error e) : e = BudError.npnNonString := by
  cases npn with
  | none => exact absurd h (by simp [bud_config_verify_npn])
  | some items =>
    by_cases hall : items.all jsonIsString
    · exact absurd h (by simp [bud_config_verify_npn, hall])
    · simp only [bud_config_verify_npn, if_neg hall, Except.error.injEq] at h
      exact h.symm

theorem load_contexts_npn_error_iff (l : List JSONValue)
    (hobjs : ∀ v ∈ l, (json_value_get_object v).isSome = true) :
    (bud_config_load_contexts l = Except.error BudError.npnNonString ↔
      ∃ el ∈ l, ∃ o, json_value_get_object el = some o ∧
        ∃ items, json_object_get_array o "npn" = some items ∧
          ∃ v ∈ items, jsonIsString v = false) := by
  induction l with
  | nil => simp [bud_config_load_contexts]
  | cons v rest ih =>
    obtain ⟨o, ho⟩ : ∃ o, json_value_get_object v = some o :=
      Option.isSome_iff_exists.mp (hobjs v (List.mem_cons_self _ _))
    have ihr := ih (fun x hx => hobjs x (List.mem_cons_of_mem _ hx))
    have hnpn : (bud_config_parse_context_obj o).npn = json_object_get_array o "npn" := rfl
    simp only [bud_config_load_contexts, ho]
    cases hver : bud_config_verify_npn (bud_config_parse_context_obj o).npn with
    | error e =>
      have he := verify_npn_error_unique _ _ hver
      subst he
      simp only [Except.error.injEq]
      constructor
      · intro _
        obtain ⟨items, hi, x, hx, hfx⟩ := (verify_npn_error_iff _).mp hver
        exact ⟨v, List.mem_cons_self _ _, o, ho, items, hnpn ▸ hi, x, hx, hfx⟩
      · intro _
        trivial
    | ok u =>
      cases u
      have hvgood : ¬ ∃ items, json_object_get_array o "npn" = some items ∧
          ∃ x ∈ items, jsonIsString x = false := by
        rintro ⟨items, hi, x, hx, hfx⟩
        have : bud_config_verify_npn (bud_config_parse_context_obj o).npn =
            Except.error BudError.npnNonString :=
          (verify_npn_error_iff _).mpr ⟨items, hnpn ▸ hi, x, hx, hfx⟩
        rw [hver] at this
        exact absurd this (by simp)
      cases hrec : bud_config_load_contexts rest with
      | error e2 =>
        simp only [Except.error.injEq]
        constructor
        · intro he2
          subst he2
          obtain ⟨el, hel, rest2⟩ := ihr.mp hrec
          exact ⟨el, List.mem_cons_of_mem _ hel, rest2⟩
        · rintro ⟨el, hel, o2, ho2, items, hi, x, hx, hfx⟩
          rcases List.mem_cons.mp hel with heq | hel2
          · subst heq
            rw [ho] at ho2
            cases ho2
            exact absurd ⟨items, hi, x, hx, hfx⟩ hvgood
          · have := ihr.mpr ⟨el, hel2, o2, ho2, items, hi, x, hx, hfx⟩
            rw [hrec] at this
            simpa using this
      | ok cs =>
        simp only []
        constructor
        · intro h
          exact absurd h (by simp)
        · rintro ⟨el, hel, o2, ho2, items, hi, x, hx, hfx⟩
          rcases List.mem_cons.mp hel with heq | hel2
          · subst heq
            rw [ho] at ho2
            cases ho2
            exact absurd ⟨items, hi, x, hx, hfx⟩ hvgood
          · have := ihr.mpr ⟨el, hel2, o2, ho2, items, hi, x, hx, hfx⟩
            rw [hrec] at this
            exact absurd this (by simp)

theorem load_error_form (j : JSONValue) (o : JSONObject)
    (hroot : json_value_get_object j = some o) (e : BudError) :
    bud_config_load (some j) = Except.error e ↔
      (bud_config_verify_npn (frontendNpnOf j) = Except.error e ∨
        (bud_config_verify_npn (frontendNpnOf j) = Except.ok () ∧
          bud_config_load_contexts (rootContextsOf j) = Except.error e)) := by
  have hctx : (json_object_get_array o "contexts").getD [] = rootContextsOf j := by
    rw [rootContextsOf, hroot]
    rfl
  have hfn : (match json_object_get_object o "frontend" with
      | none => ({} : BudFrontend)
      | some f => bud_config_parse_frontend f).npn = frontendNpnOf j := by
    rw [frontendNpnOf, hroot]
    cases hf : json_object_get_object o "frontend" <;>
      simp [hf, bud_config_parse_frontend]
  simp only [bud_config_load, hroot]
  rw [hfn, hctx]
  cases hv : bud_config_verify_npn (frontendNpnOf j) with
  | error e2 => simp [hv]
  | ok u =>
    cases u
    cases hrec : bud_config_load_contexts (rootContextsOf j) with
    | error e3 => simp [hv, hrec]
    | ok cs => simp [hv, hrec]

/-- C9 amended: restricted to configuration files whose root is a JSON object
and whose contexts array contains only objects, bud_config_load fails with
the non-string-in-NPN-array error exactly when some element of the frontend
npn array or of some context's npn array is not a JSON string; and NPN
verification always succeeds on an absent array or an array of strings.
Without the restriction the equivalence fails: a non-object context element
earlier in the array masks the NPN error (the counterexample). -/
theorem claim_C9_npn_error_iff (j : JSONValue) (o : JSONObject)
    (hroot : json_value_get_object j = some o)
    (hobjs : ∀ v ∈ rootContextsOf j, (json_value_get_object v).isSome = true) :
    (bud_config_load (some j) = Except.error BudError.npnNonString ↔
      someNpnNonString j) ∧
    (∀ items, (∀ v ∈ items, jsonIsString v = true) →
      bud_config_verify_npn (some items) = Except.ok ()) ∧
    bud_config_verify_npn none = Except.ok () := by
  refine ⟨?_, ?_, rfl⟩
  · rw [load_error_form j o hroot]
    rw [someNpnNonString]
    rw [verify_npn_error_iff]
    rw [load_contexts_npn_error_iff _ hobjs]
    constructor
    · rintro (h | ⟨_, h⟩)
      · exact Or.inl h
      · exact Or.inr h
    · rintro (h | h)
      · exact Or.inl h
      · cases hv : bud_config_verify_npn (frontendNpnOf j) with
        | ok u =>
          cases u
          exact Or.inr ⟨rfl, h⟩
        | error e =>
          have he := verify_npn_error_unique _ _ hv
          subst he
          exact Or.inl ((verify_npn_error_iff _).mp hv)
  · intro items h
    simp [bud_config_verify_npn, List.all_eq_true.mpr h]

/-- Configuration whose contexts array starts with a non-object element and
whose second context has a non-string NPN entry. -/
def jsonMaskedNpn : JSONValue :=
  JSONValue.jobj [("contexts", JSONValue.jarr
    [JSONValue.jnum 1,
     JSONValue.jobj [("npn", JSONValue.jarr [JSONValue.jnum 2])]])]

/-- C9 counterexample: a per-context npn array does contain a non-string, yet
bud_config_load fails with the non-object-context error instead of the
non-string-in-NPN error, because the loop aborts at the earlier non-object
element: the claimed equivalence does not hold unconditionally. -/
theorem claim_C9_counterexample :
    someNpnNonString jsonMaskedNpn ∧
    bud_config_load (some jsonMaskedNpn) = Except.error BudError.jsonNonObjectCtx ∧
    BudError.jsonNonObjectCtx ≠ BudError.npnNonString := by
  refine ⟨Or.inr ⟨JSONValue.jobj [("npn", JSONValue.jarr [JSONValue.jnum 2])],
    ?_, _, rfl, _, rfl, JSONValue.jnum 2, ?_, rfl⟩, rfl, by decide⟩
  · exact List.Mem.tail _ (List.Mem.head _)
  · exact List.Mem.head _

/-- Configuration whose frontend npn array holds a non-string. -/
def jsonBadFrontNpn : JSONValue :=
  JSONValue.jobj [("frontend", JSONValue.jobj
    [("npn", JSONValue.jarr [JSONValue.jnum 3])])]

/-- C9 witness: a frontend npn array with a number makes loading fail with
the NPN non-string error. -/
theorem claim_C9_witness :
    bud_config_load (some jsonBadFrontNpn) = Except.error BudError.npnNonString :=
  ((claim_C9_npn_error_iff jsonBadFrontNpn
      [("frontend", JSONValue.jobj [("npn", JSONValue.jarr [JSONValue.jnum 3])])]
      rfl (by intro v hv; exact absurd hv (List.not_mem_nil v))).1).mpr
    (Or.inl ⟨[JSONValue.jnum 3], rfl, JSONValue.jnum 3, List.Mem.head _, rfl⟩)

end Bud
